import Mathlib

/-!
Shallow embedding of `src/audio_recog.py`, a Streamlit page with two
independent columns: a microphone column (session-state driven recording
branch, lines 61-142) and a file-upload column (uploader, "Process Audio
File" handler and temp-file bookkeeping, lines 145-211). External calls
(microphone open, `r.listen`, `r.recognize_google`, `sr.AudioFile` +
`r.record`, the Streamlit widgets) are modelled by explicit environment
values describing what each call returns or raises; Python exceptions are
an explicit inductive, and each `try`/`except` chain of the source is
translated clause by clause.
-/

namespace AudioRecog

/-- Opaque handle for a captured audio buffer (`sr.AudioData`). -/
abbrev AudioData := Nat

/-- The sidebar settings, lines 36-46: language selectbox, ambient-noise
checkbox (default on), timeout slider (1-10, default 5). -/
structure Settings where
  language : String
  adjust_noise : Bool
  timeout : Nat
deriving DecidableEq

/-- The selectbox options of line 38. -/
def supportedLanguages : List String :=
  ["en-US", "en-GB", "es-ES", "fr-FR", "de-DE", "it-IT", "hi-IN"]

/-- `index=0`, `value=True`, slider default 5 (lines 36-46). -/
def defaultSettings : Settings :=
  { language := "en-US", adjust_noise := true, timeout := 5 }

/-- The microphone column session-state keys of lines 65-70. -/
structure SessionState where
  recording : Bool
  audio_data : Option AudioData
  recognized_text : String
deriving DecidableEq

/-- The initialization of lines 65-70: `recording = False`,
`audio_data = None`, `recognized_text = ""`. -/
def initialSessionState : SessionState :=
  { recording := false, audio_data := none, recognized_text := "" }

/-- The Python exceptions the program distinguishes: the two
`speech_recognition` classes caught by name (`sr.UnknownValueError`,
`sr.RequestError`), `sr.WaitTimeoutError` raised by `r.listen` when the
timeout elapses with no speech, a device failure from `sr.Microphone()` /
the capture, a decode failure from `sr.AudioFile`, and any other
exception. -/
inductive PyExn where
  | unknownValueError
  | requestError (msg : String)
  | waitTimeoutError (msg : String)
  | deviceError (msg : String)
  | audioFileError (msg : String)
  | otherError (msg : String)
deriving DecidableEq

/-- Python `str(e)` as used by the f-strings of the handlers. -/
def pyStr : PyExn → String
  | .unknownValueError => ""
  | .requestError m => m
  | .waitTimeoutError m => m
  | .deviceError m => m
  | .audioFileError m => m
  | .otherError m => m

/-- Python `except Exception` (lines 118, 122 and 209): every exception
raised in this program is an `Exception`, so the clause matches any of
them. -/
def catchesAnyException : PyExn → Bool := fun _ => true

/-- Result of one Python call: a value, or a raised exception. -/
inductive PyResult (α : Type) where
  | ok (value : α)
  | raised (e : PyExn)
deriving DecidableEq

/-- The error taxonomy of spec section 7, used to label which `except`
clause of the source classified a failure. -/
inductive ErrorKind where
  | timeout
  | unintelligible
  | serviceUnavailable
  | invalidInput
  | deviceFailure
  | unknown
deriving DecidableEq

/-- One invocation of `r.recognize_google(audio, language=language)`
(lines 109 and 181): the buffer and the exact language tag passed. -/
structure AdapterCall where
  audio : AudioData
  language : String
deriving DecidableEq

/-- Outcome of one pass through the recording branch: a stored success
text, a stored failure message labelled with the `except` clause that
produced it, or no stored result (the outer handler path). -/
inductive MicOutcome where
  | success (text : String)
  | failure (kind : ErrorKind) (message : String)
  | noResult
deriving DecidableEq

/-- Everything one execution of the microphone column produces: the new
session state, the adapter calls issued, the inline error messages shown
(`st.error` / `status_placeholder.error`), whether the
check-your-microphone hint of line 124 was shown, and the outcomes. -/
structure MicRunOutput where
  state : SessionState
  calls : List AdapterCall
  errors : List String
  deviceHintShown : Bool
  outcomes : List MicOutcome
deriving DecidableEq

/-- Environment of one pass through the recording branch: what
`sr.Microphone()` + `adjust_for_ambient_noise` does (raises or not), what
`r.listen` returns or raises, and what `r.recognize_google` returns or
raises. -/
structure MicEnv where
  micOpen : Option PyExn
  listen : PyResult AudioData
  recognize : PyResult String
deriving DecidableEq

/-- Lines 94-121: the body of the outer `try` of the recording branch —
microphone open plus optional noise adjustment, `r.listen`, the
`audio_data` assignment, then the inner `try` around `r.recognize_google`
whose clauses (lines 112-120) catch `sr.UnknownValueError`,
`sr.RequestError` and finally any `Exception`. An exception no clause of
the inner chain catches is returned as `.raised`. -/
def micBodyRaw (settings : Settings) (env : MicEnv) (s : SessionState) :
    PyResult MicRunOutput :=
  match env.micOpen with
  | some e => .raised e
  | none =>
    match env.listen with
    | .raised e => .raised e
    | .ok audio =>
      let s1 : SessionState := { s with audio_data := some audio }
      let call : AdapterCall := { audio := audio, language := settings.language }
      match env.recognize with
      | .ok text =>
        .ok { state := { s1 with recognized_text := text },
              calls := [call], errors := [], deviceHintShown := false,
              outcomes := [.success text] }
      | .raised .unknownValueError =>
        .ok { state := { s1 with recognized_text := "Could not understand audio" },
              calls := [call],
              errors := ["❌ Could not understand audio"],
              deviceHintShown := false,
              outcomes := [.failure .unintelligible ("Could not understand audio")] }
      | .raised (.requestError m) =>
        .ok { state := { s1 with recognized_text := "API error: " ++ m },
              calls := [call],
              errors := ["❌ API error: " ++ m],
              deviceHintShown := false,
              outcomes := [.failure .serviceUnavailable ("API error: " ++ m)] }
      | .raised e =>
        .ok { state := { s1 with recognized_text := "Error: " ++ pyStr e },
              calls := [call],
              errors := ["❌ Error: " ++ pyStr e],
              deviceHintShown := false,
              outcomes := [.failure .unknown ("Error: " ++ pyStr e)] }

/-- Lines 122-124: the outer `except Exception` clause of the microphone
column: shows the inline "Microphone error: ..." message and the
check-your-microphone-connection-and-permissions hint; the session state
is left as it was, no result is stored. -/
def micOuterHandlerOutput (s : SessionState) (e : PyExn) : MicRunOutput :=
  { state := s, calls := [],
    errors := ["Microphone error: " ++ pyStr e],
    deviceHintShown := true,
    outcomes := [.noResult] }

/-- Lines 88-124: the whole recording branch, outer `try`/`except`
included. -/
def micRecordingBranch (settings : Settings) (env : MicEnv) (s : SessionState) :
    MicRunOutput :=
  match micBodyRaw settings env s with
  | .ok o => o
  | .raised e => micOuterHandlerOutput s e

/-- The exception, if any, that would escape the microphone column: one
the body raises and the outer `except` chain does not match. An escaping
exception would abort the script run. -/
def micUncaught (settings : Settings) (env : MicEnv) (s : SessionState) :
    Option PyExn :=
  match micBodyRaw settings env s with
  | .ok _ => none
  | .raised e => if catchesAnyException e then none else some e

/-- Lines 127-142: the result text area (and, nested under the same
guard, the download button) is rendered exactly when
`st.session_state.recognized_text` is truthy, i.e. a non-empty string. -/
def micResultShown (s : SessionState) : Bool :=
  s.recognized_text != ""

/-- Lines 137-142: the download button, rendered under the same
truthiness guard as the text area. -/
def micDownloadShown (s : SessionState) : Bool :=
  micResultShown s

/-- Line 139: the download data is whatever `recognized_text` holds. -/
def micDownloadData (s : SessionState) : String :=
  s.recognized_text

/-- One top-to-bottom script run of the microphone column (the branch of
lines 88-124, guarded by the `recording` flag). -/
def scriptRun (settings : Settings) (env : MicEnv) (s : SessionState) :
    MicRunOutput :=
  if s.recording then micRecordingBranch settings env s
  else { state := s, calls := [], errors := [], deviceHintShown := false, outcomes := [] }

/-- A user interaction that triggers a Streamlit rerun: clicking Start
(line 77), clicking Stop (line 83), or any other interaction (changing a
widget, pressing a button in the other column, ...). -/
inductive UserAction where
  | clickStart
  | clickStop
  | rerun
deriving DecidableEq

/-- Lines 75-85 followed by 88-124: processing one user interaction. A
Start click (rendered only while not recording) sets `recording := True`
and `st.rerun()` re-executes the script, which then enters the recording
branch; a Stop click (rendered only while recording) sets
`recording := False` and the re-executed script skips the branch; any
other interaction re-executes the script with the flag unchanged. -/
def scriptStep (settings : Settings) (s : SessionState) (a : UserAction)
    (env : MicEnv) : MicRunOutput :=
  match a with
  | .clickStart =>
    if s.recording then scriptRun settings env s
    else scriptRun settings env { s with recording := true }
  | .clickStop =>
    if s.recording then scriptRun settings env { s with recording := false }
    else scriptRun settings env s
  | .rerun => scriptRun settings env s

/-- A sequence of interactions folded through `scriptStep`, collecting
every run output. -/
def runTrace (settings : Settings) :
    SessionState → List (UserAction × MicEnv) → SessionState × List MicRunOutput
  | s, [] => (s, [])
  | s, (a, env) :: rest =>
    let o := scriptStep settings s a env
    let r := runTrace settings o.state rest
    (r.1, o :: r.2)

/-- Number of Start clicks in a trace. -/
def countStarts (tr : List (UserAction × MicEnv)) : Nat :=
  (tr.filter (fun p => match p.1 with | .clickStart => true | _ => false)).length

/-- Number of Stop clicks in a trace. -/
def countStops (tr : List (UserAction × MicEnv)) : Nat :=
  (tr.filter (fun p => match p.1 with | .clickStop => true | _ => false)).length

/-- Total number of outcomes across the runs of a trace. -/
def totalOutcomes (os : List MicRunOutput) : Nat :=
  (os.map (fun o => o.outcomes.length)).sum

/-- Total number of adapter calls across the runs of a trace. -/
def totalCalls (os : List MicRunOutput) : Nat :=
  (os.map (fun o => o.calls.length)).sum

/-- An environment in which the microphone and the recognition service
both succeed. -/
def envOk (t : String) : MicEnv :=
  { micOpen := none, listen := .ok 0, recognize := .ok t }

/-- An uploaded file: its name, its declared extension, its raw bytes. -/
structure UploadFile where
  name : String
  ext : String
  content : String
deriving DecidableEq

/-- Line 151: `type=['wav', 'mp3', 'm4a', 'flac', 'ogg']`. -/
def allowedExtensions : List String :=
  ["wav", "mp3", "m4a", "flac", "ogg"]

/-- Lines 149-152: `st.file_uploader` with the extension allow-list. The
widget only delivers files whose extension is on the list; anything else
is rejected at the widget with a visible message and never reaches the
script body. -/
def file_uploader (f : Option UploadFile) : Option UploadFile :=
  match f with
  | none => none
  | some file => if file.ext ∈ allowedExtensions then some file else none

/-- Environment of one "Process Audio File" click: what the
`sr.AudioFile` open + optional noise adjustment + `r.record` sequence
(lines 173-178) yields, and what `r.recognize_google` (line 181) yields. -/
structure FileEnv where
  audioSource : PyResult AudioData
  recognize : PyResult String
deriving DecidableEq

/-- Filesystem and network effects of the file handler that survive an
exception: whether the temp file of line 168 was created, whether the
`os.unlink` of line 207 ran, and the adapter calls issued. -/
structure FileWorld where
  tempCreated : Bool
  tempDeleted : Bool
  tempBytes : String
  calls : List AdapterCall
deriving DecidableEq

/-- The displayed pieces of the file handler: inline errors, the result
text area content, the download button data, and which `except` clause
(if any) classified a failure. -/
structure FileDisplay where
  errors : List String
  shownText : Option String
  downloadData : Option String
  failKind : Option ErrorKind
deriving DecidableEq

/-- Everything one "Process Audio File" click produces. -/
structure FileRunOutput where
  tempCreated : Bool
  tempDeleted : Bool
  calls : List AdapterCall
  errors : List String
  shownText : Option String
  downloadData : Option String
  formatHintShown : Bool
  failKind : Option ErrorKind
deriving DecidableEq

/-- The file column when nothing is processed (no upload, no click, or
the widget rejected the file): no temp file, no calls, nothing shown. -/
def fileNoRun : FileRunOutput :=
  { tempCreated := false, tempDeleted := false, calls := [], errors := [],
    shownText := none, downloadData := none, formatHintShown := false,
    failKind := none }

/-- Lines 167-207: the body of the outer `try` of the file handler.
`tempfile.NamedTemporaryFile(delete=False)` materializes the bytes (so
`tempCreated` is set first), then `sr.AudioFile` + optional noise
adjustment + `r.record`, then the inner `try` around `r.recognize_google`
whose only clauses (lines 201-204) catch `sr.UnknownValueError` and
`sr.RequestError`; after the `with` block, `os.unlink(tmp_path)` on line
207. An exception the inner chain does not catch propagates out as
`.raised`, skipping the unlink; the world effects accumulated before the
raise are returned alongside. -/
def fileBodyRaw (settings : Settings) (f : UploadFile) (env : FileEnv) :
    PyResult FileDisplay × FileWorld :=
  let w0 : FileWorld :=
    { tempCreated := true, tempDeleted := false, tempBytes := f.content, calls := [] }
  match env.audioSource with
  | .raised e => (.raised e, w0)
  | .ok audio =>
    let call : AdapterCall := { audio := audio, language := settings.language }
    let w1 : FileWorld := { w0 with calls := [call] }
    match env.recognize with
    | .ok text =>
      (.ok { errors := [], shownText := some text, downloadData := some text,
             failKind := none },
       { w1 with tempDeleted := true })
    | .raised .unknownValueError =>
      (.ok { errors := ["Could not understand audio in the file"],
             shownText := none, downloadData := none,
             failKind := some .unintelligible },
       { w1 with tempDeleted := true })
    | .raised (.requestError m) =>
      (.ok { errors := ["API error: " ++ m], shownText := none,
             downloadData := none, failKind := some .serviceUnavailable },
       { w1 with tempDeleted := true })
    | .raised e => (.raised e, w1)

/-- Lines 209-211: the outer `except Exception` clause of the file
handler: shows "Error processing file: ..." and the supported-formats
hint. It does not unlink the temp file. -/
def fileOuterHandlerOutput (w : FileWorld) (e : PyExn) : FileRunOutput :=
  { tempCreated := w.tempCreated, tempDeleted := w.tempDeleted,
    calls := w.calls,
    errors := ["Error processing file: " ++ pyStr e],
    shownText := none, downloadData := none, formatHintShown := true,
    failKind := some .unknown }

/-- Lines 164-211: the whole "Process Audio File" click handler, outer
`try`/`except` included. -/
def fileProcess (settings : Settings) (f : UploadFile) (env : FileEnv) :
    FileRunOutput :=
  match fileBodyRaw settings f env with
  | (.ok d, w) =>
    { tempCreated := w.tempCreated, tempDeleted := w.tempDeleted,
      calls := w.calls, errors := d.errors, shownText := d.shownText,
      downloadData := d.downloadData, formatHintShown := false,
      failKind := d.failKind }
  | (.raised e, w) => fileOuterHandlerOutput w e

/-- The exception, if any, that would escape the file handler: one the
body raises and the outer `except` chain does not match. -/
def fileUncaught (settings : Settings) (f : UploadFile) (env : FileEnv) :
    Option PyExn :=
  match (fileBodyRaw settings f env).1 with
  | .ok _ => none
  | .raised e => if catchesAnyException e then none else some e

/-- Lines 145-211: the file column for one script run: the file the
uploader delivers (if any), whether "Process Audio File" was clicked, and
the environment of the external calls. -/
def fileColumn (settings : Settings) (f : Option UploadFile)
    (processClicked : Bool) (env : FileEnv) : FileRunOutput :=
  match file_uploader f with
  | none => fileNoRun
  | some uf => if processClicked then fileProcess settings uf env else fileNoRun

/-- `m` occurs verbatim inside `s`. -/
def strContains (s m : String) : Prop :=
  ∃ p q : String, s = p ++ m ++ q

/-- A string is an occurrence of itself followed by nothing. -/
theorem strContains_append_left (p m : String) : strContains (p ++ m) m :=
  ⟨p, "", (String.append_empty (p ++ m)).symm⟩

/-- C1: the spec guarantees the temp file is deleted on every exit path of
a file-upload transcription attempt, including an unexpected exception.
The code puts `os.unlink` on the straight-line path inside the outer
`try` instead of a `finally`: when `sr.AudioFile` cannot decode the
uploaded bytes (for example an mp3, which the uploader accepts but
`sr.AudioFile` cannot read), the exception jumps to the outer handler and
the temp file is leaked. This theorem evaluates the handler at that
failing input: the temp file is created, the error is shown, and the
deletion never happens. -/
theorem c1_temp_file_leak_on_unexpected_exception :
    (fileProcess defaultSettings
        { name := "song.mp3", ext := "mp3", content := "mp3-bytes" }
        { audioSource := PyResult.raised (PyExn.audioFileError "decode failed"),
          recognize := PyResult.ok ("") }).tempCreated = true ∧
    (fileProcess defaultSettings
        { name := "song.mp3", ext := "mp3", content := "mp3-bytes" }
        { audioSource := PyResult.raised (PyExn.audioFileError "decode failed"),
          recognize := PyResult.ok ("") }).tempDeleted = false ∧
    (fileProcess defaultSettings
        { name := "song.mp3", ext := "mp3", content := "mp3-bytes" }
        { audioSource := PyResult.raised (PyExn.audioFileError "decode failed"),
          recognize := PyResult.ok ("") }).errors
      = ["Error processing file: decode failed"] := by
  decide

/-- C2, counterexample: in the microphone column a failed attempt
(`sr.UnknownValueError`) stores the failure message into
`recognized_text`, which is non-empty, so the lines 127-142 guard renders
the download button for that failure — a download control is rendered for
a Failure result, against the claim. -/
theorem c2_mic_download_after_failure_counterexample :
    (micRecordingBranch defaultSettings
        { micOpen := none, listen := PyResult.ok 0,
          recognize := PyResult.raised PyExn.unknownValueError }
        { recording := true, audio_data := none, recognized_text := "" }).outcomes
      = [MicOutcome.failure ErrorKind.unintelligible ("Could not understand audio")] ∧
    micDownloadShown (micRecordingBranch defaultSettings
        { micOpen := none, listen := PyResult.ok 0,
          recognize := PyResult.raised PyExn.unknownValueError }
        { recording := true, audio_data := none, recognized_text := "" }).state
      = true ∧
    micDownloadData (micRecordingBranch defaultSettings
        { micOpen := none, listen := PyResult.ok 0,
          recognize := PyResult.raised PyExn.unknownValueError }
        { recording := true, audio_data := none, recognized_text := "" }).state
      = "Could not understand audio" := by
  decide

/-- C2 (amended): in the file-upload column a download artifact is
offered exactly when the attempt produced a Success (the audio source was
readable and recognition returned text), and its content is the shown
transcript. In the microphone column, however, the download control is
rendered whenever the stored `recognized_text` is non-empty — which after
a failed attempt holds with the failure message, so a download control is
rendered for failures as well. -/
theorem c2_download_iff_success_amended :
    ∀ (settings : Settings) (f : UploadFile) (env : FileEnv)
      (audio : AudioData) (s : SessionState),
      ((fileProcess settings f env).downloadData
        = (fileProcess settings f env).shownText) ∧
      ((fileProcess settings f env).downloadData.isSome = true ↔
        ∃ a t, env.audioSource = PyResult.ok a ∧ env.recognize = PyResult.ok t) ∧
      (micDownloadShown (micRecordingBranch settings
          { micOpen := none, listen := PyResult.ok audio,
            recognize := PyResult.raised PyExn.unknownValueError } s).state = true) ∧
      (∀ st : SessionState, micDownloadShown st = true ↔ st.recognized_text ≠ "") := by
  intro settings f env audio s
  obtain ⟨src, rec⟩ := env
  refine ⟨?_, ?_, ?_, ?_⟩
  · cases src with
    | raised e => rfl
    | ok a =>
      cases rec with
      | ok t => rfl
      | raised e => cases e <;> rfl
  · cases src with
    | raised e => simp [fileProcess, fileBodyRaw, fileOuterHandlerOutput]
    | ok a =>
      cases rec with
      | ok t => simp [fileProcess, fileBodyRaw]
      | raised e =>
        cases e <;> simp [fileProcess, fileBodyRaw, fileOuterHandlerOutput]
  · simp [micRecordingBranch, micBodyRaw, micDownloadShown, micResultShown]
  · intro st
    show (st.recognized_text != "") = true ↔ st.recognized_text ≠ ""
    exact bne_iff_ne

/-- C3, counterexample: a timeout from `r.listen` is not caught by the
inner chain (which only wraps `r.recognize_google`); it falls to the
generic outer `except Exception` of lines 122-124 and is rendered exactly
like a device error: the same "Microphone error: ..." inline message and
the same check-your-microphone-connection-and-permissions hint. With the
same message text, the run output for a timeout is literally identical to
the run output for a microphone device failure — the presentation is not
distinct. -/
theorem c3_timeout_not_distinct_counterexample :
    (micRecordingBranch defaultSettings
        { micOpen := none,
          listen := PyResult.raised
            (PyExn.waitTimeoutError "listening timed out while waiting for phrase to start"),
          recognize := PyResult.ok ("") }
        { recording := true, audio_data := none, recognized_text := "" }).deviceHintShown
      = true ∧
    (micRecordingBranch defaultSettings
        { micOpen := none,
          listen := PyResult.raised
            (PyExn.waitTimeoutError "listening timed out while waiting for phrase to start"),
          recognize := PyResult.ok ("") }
        { recording := true, audio_data := none, recognized_text := "" }).errors
      = ["Microphone error: listening timed out while waiting for phrase to start"] ∧
    micRecordingBranch defaultSettings
        { micOpen := none,
          listen := PyResult.raised
            (PyExn.waitTimeoutError "listening timed out while waiting for phrase to start"),
          recognize := PyResult.ok ("") }
        { recording := true, audio_data := none, recognized_text := "" }
      = micRecordingBranch defaultSettings
        { micOpen := some
            (PyExn.deviceError "listening timed out while waiting for phrase to start"),
          listen := PyResult.ok 0, recognize := PyResult.ok ("") }
        { recording := true, audio_data := none, recognized_text := "" } := by
  decide

/-- C3 (amended): when the configured timeout elapses with no speech, the
attempt fails and no result is stored (the session state is unchanged),
but the failure is handled by the generic outer `except Exception`
handler: it is shown as "Microphone error: ..." together with the
device/permissions hint, identically to a DeviceError with the same
message — not as a distinct Timeout presentation. -/
theorem c3_timeout_generic_handler_amended :
    ∀ (settings : Settings) (m : String) (s : SessionState)
      (r r2 : PyResult String) (l : PyResult AudioData),
      ((micRecordingBranch settings
          { micOpen := none, listen := PyResult.raised (PyExn.waitTimeoutError m),
            recognize := r } s).state = s) ∧
      ((micRecordingBranch settings
          { micOpen := none, listen := PyResult.raised (PyExn.waitTimeoutError m),
            recognize := r } s).outcomes = [MicOutcome.noResult]) ∧
      ((micRecordingBranch settings
          { micOpen := none, listen := PyResult.raised (PyExn.waitTimeoutError m),
            recognize := r } s).errors = ["Microphone error: " ++ m]) ∧
      ((micRecordingBranch settings
          { micOpen := none, listen := PyResult.raised (PyExn.waitTimeoutError m),
            recognize := r } s).deviceHintShown = true) ∧
      (micRecordingBranch settings
          { micOpen := none, listen := PyResult.raised (PyExn.waitTimeoutError m),
            recognize := r } s
        = micRecordingBranch settings
            { micOpen := some (PyExn.deviceError m), listen := l, recognize := r2 } s) := by
  intro settings m s r r2 l
  exact ⟨rfl, rfl, rfl, rfl, rfl⟩

/-- C5, counterexample: the recording branch never clears the `recording`
flag after producing an outcome, so a single Start activation (with no
Stop) produces a further capture, recognition call and outcome on any
later rerun: the trace Start-then-rerun has one Start click, no Stop
click, and yet two outcomes and two adapter calls — not exactly one
outcome per Recording activation. -/
theorem c5_multiple_outcomes_one_start_counterexample :
    countStarts [(UserAction.clickStart, envOk ("hello")),
                 (UserAction.rerun, envOk ("world"))] = 1 ∧
    countStops [(UserAction.clickStart, envOk ("hello")),
                (UserAction.rerun, envOk ("world"))] = 0 ∧
    totalOutcomes (runTrace defaultSettings initialSessionState
        [(UserAction.clickStart, envOk ("hello")),
         (UserAction.rerun, envOk ("world"))]).2 = 2 ∧
    totalCalls (runTrace defaultSettings initialSessionState
        [(UserAction.clickStart, envOk ("hello")),
         (UserAction.rerun, envOk ("world"))]).2 = 2 := by
  decide

/-- C5 (amended): each single script run that enters the recording branch
yields exactly one outcome, and the branch behaves the same whatever the
previous cycle left in the session state (its outcomes, calls and error
displays do not depend on the prior state) — but the run leaves the
`recording` flag exactly as it found it (set), so one Start activation
keeps producing outcomes on subsequent reruns until an explicit Stop. -/
theorem c5_single_run_single_outcome_amended :
    ∀ (settings : Settings) (env : MicEnv) (s s2 : SessionState),
      ((micRecordingBranch settings env s).outcomes.length = 1) ∧
      ((micRecordingBranch settings env s).state.recording = s.recording) ∧
      ((micRecordingBranch settings env s).outcomes
        = (micRecordingBranch settings env s2).outcomes) ∧
      ((micRecordingBranch settings env s).calls
        = (micRecordingBranch settings env s2).calls) ∧
      ((micRecordingBranch settings env s).errors
        = (micRecordingBranch settings env s2).errors) := by
  intro settings env s s2
  obtain ⟨mo, li, re⟩ := env
  cases mo with
  | some e => exact ⟨rfl, rfl, rfl, rfl, rfl⟩
  | none =>
    cases li with
    | raised e => exact ⟨rfl, rfl, rfl, rfl, rfl⟩
    | ok audio =>
      cases re with
      | ok t => exact ⟨rfl, rfl, rfl, rfl, rfl⟩
      | raised e => cases e <;> exact ⟨rfl, rfl, rfl, rfl, rfl⟩

/-- C6: no exception escapes either column: every exception the
microphone body or the file body can raise is matched by that column's
outermost `except Exception` clause, so nothing propagates past the
controller and the application keeps running and accepts the next
action. -/
theorem c6_no_exception_escapes :
    ∀ (settings : Settings) (env : MicEnv) (s : SessionState)
      (f : UploadFile) (envF : FileEnv),
      micUncaught settings env s = none ∧ fileUncaught settings f envF = none := by
  intro settings env s f envF
  constructor
  · rcases hm : micBodyRaw settings env s with o | e <;>
      simp [micUncaught, hm, catchesAnyException]
  · rcases hf : (fileBodyRaw settings f envF).1 with d | e <;>
      simp [fileUncaught, hf, catchesAnyException]

/-- C7: for every supported language tag, a transcription attempt in
either column passes that exact tag to every
`r.recognize_google(audio, language=language)` call it issues. -/
theorem c7_language_tag_passed_exactly :
    ∀ (settings : Settings) (env : MicEnv) (s : SessionState)
      (f : UploadFile) (envF : FileEnv),
      settings.language ∈ supportedLanguages →
      ((∀ c ∈ (micRecordingBranch settings env s).calls,
          c.language = settings.language) ∧
       (∀ c ∈ (fileProcess settings f envF).calls,
          c.language = settings.language)) := by
  intro settings env s f envF _
  constructor
  · obtain ⟨mo, li, re⟩ := env
    cases mo with
    | some e =>
      intro c hc
      simp [micRecordingBranch, micBodyRaw, micOuterHandlerOutput] at hc
    | none =>
      cases li with
      | raised e =>
        intro c hc
        simp [micRecordingBranch, micBodyRaw, micOuterHandlerOutput] at hc
      | ok audio =>
        cases re with
        | ok t =>
          intro c hc
          simp [micRecordingBranch, micBodyRaw] at hc
          subst hc
          rfl
        | raised e =>
          cases e <;>
            (intro c hc
             simp [micRecordingBranch, micBodyRaw] at hc
             subst hc
             rfl)
  · obtain ⟨src, rec⟩ := envF
    cases src with
    | raised e =>
      intro c hc
      simp [fileProcess, fileBodyRaw, fileOuterHandlerOutput] at hc
    | ok a =>
      cases rec with
      | ok t =>
        intro c hc
        simp [fileProcess, fileBodyRaw] at hc
        subst hc
        rfl
      | raised e =>
        cases e <;>
          (intro c hc
           simp [fileProcess, fileBodyRaw, fileOuterHandlerOutput] at hc
           subst hc
           rfl)

/-- C7, witness: with the default settings (language "en-US", which is on
the selectbox list) a successful microphone attempt and a successful file
attempt each pass exactly "en-US" to the adapter. -/
theorem c7_language_tag_passed_exactly_witness :
    (∀ c ∈ (micRecordingBranch defaultSettings
        { micOpen := none, listen := PyResult.ok 0,
          recognize := PyResult.ok ("hello world") }
        initialSessionState).calls, c.language = "en-US") ∧
    (∀ c ∈ (fileProcess defaultSettings
        { name := "a.wav", ext := "wav", content := "bytes" }
        { audioSource := PyResult.ok 0,
          recognize := PyResult.ok ("hello world") }).calls,
      c.language = "en-US") :=
  c7_language_tag_passed_exactly defaultSettings
    { micOpen := none, listen := PyResult.ok 0,
      recognize := PyResult.ok ("hello world") }
    initialSessionState
    { name := "a.wav", ext := "wav", content := "bytes" }
    { audioSource := PyResult.ok 0, recognize := PyResult.ok ("hello world") }
    (by decide)

/-- C8: an uploaded file whose extension is outside the allow-list never
reaches the processing body: the uploader delivers nothing, so no temp
artifact is created, no adapter call is issued, and the whole column run
is the inert no-run output (no crash). -/
theorem c8_disallowed_extension_rejected :
    ∀ (settings : Settings) (f : UploadFile) (clicked : Bool) (env : FileEnv),
      f.ext ∉ allowedExtensions →
      (fileColumn settings (some f) clicked env).tempCreated = false ∧
      (fileColumn settings (some f) clicked env).calls = [] ∧
      fileColumn settings (some f) clicked env = fileNoRun := by
  intro settings f clicked env h
  have hu : file_uploader (some f) = none := by
    simp [file_uploader, h]
  refine ⟨?_, ?_, ?_⟩ <;> simp [fileColumn, hu, fileNoRun]

/-- C8, witness: a "notes.txt" upload (extension outside the allow-list)
is rejected: no temp file, no adapter call, inert run. -/
theorem c8_disallowed_extension_rejected_witness :
    (fileColumn defaultSettings
        (some { name := "notes.txt", ext := "txt", content := "hi" }) true
        { audioSource := PyResult.ok 0, recognize := PyResult.ok ("hi") }).tempCreated
      = false ∧
    (fileColumn defaultSettings
        (some { name := "notes.txt", ext := "txt", content := "hi" }) true
        { audioSource := PyResult.ok 0, recognize := PyResult.ok ("hi") }).calls
      = [] ∧
    fileColumn defaultSettings
        (some { name := "notes.txt", ext := "txt", content := "hi" }) true
        { audioSource := PyResult.ok 0, recognize := PyResult.ok ("hi") }
      = fileNoRun :=
  c8_disallowed_extension_rejected defaultSettings
    { name := "notes.txt", ext := "txt", content := "hi" } true
    { audioSource := PyResult.ok 0, recognize := PyResult.ok ("hi") }
    (by decide)

/-- C9: in both columns, a `sr.RequestError` with message `m` is caught
by its own dedicated clause — labelled ServiceUnavailable in the spec
taxonomy — and the inline error shown to the user contains `m`
verbatim. -/
theorem c9_request_error_service_unavailable :
    ∀ (settings : Settings) (m : String) (audio a2 : AudioData)
      (s : SessionState) (f : UploadFile),
      ((micRecordingBranch settings
          { micOpen := none, listen := PyResult.ok audio,
            recognize := PyResult.raised (PyExn.requestError m) } s).errors
        = ["❌ API error: " ++ m]) ∧
      strContains ("❌ API error: " ++ m) m ∧
      ((micRecordingBranch settings
          { micOpen := none, listen := PyResult.ok audio,
            recognize := PyResult.raised (PyExn.requestError m) } s).outcomes
        = [MicOutcome.failure ErrorKind.serviceUnavailable ("API error: " ++ m)]) ∧
      ((fileProcess settings f
          { audioSource := PyResult.ok a2,
            recognize := PyResult.raised (PyExn.requestError m) }).errors
        = ["API error: " ++ m]) ∧
      strContains ("API error: " ++ m) m ∧
      ((fileProcess settings f
          { audioSource := PyResult.ok a2,
            recognize := PyResult.raised (PyExn.requestError m) }).failKind
        = some ErrorKind.serviceUnavailable) := by
  intro settings m audio a2 s f
  exact ⟨rfl, strContains_append_left ("❌ API error: ") m, rfl, rfl,
         strContains_append_left ("API error: ") m, rfl⟩

/-- C10: the microphone result text area and its download button are
rendered exactly when the stored `recognized_text` is a non-empty string
(the download content being that text), and in the initial session state
(`recognized_text` equal to the empty string) neither is shown. -/
theorem c10_mic_result_shown_iff_nonempty :
    (∀ s : SessionState,
       (micResultShown s = true ↔ s.recognized_text ≠ "") ∧
       micDownloadShown s = micResultShown s ∧
       micDownloadData s = s.recognized_text) ∧
    micResultShown initialSessionState = false ∧
    micDownloadShown initialSessionState = false := by
  refine ⟨fun s => ⟨?_, rfl, rfl⟩, by decide, by decide⟩
  show (s.recognized_text != "") = true ↔ s.recognized_text ≠ ""
  exact bne_iff_ne

end AudioRecog
